import Mathlib

/-!
Shallow embedding of the bin-packing simulation engine
(`core_utils.py` and `simulation.py`): the tote/case data model,
the placement search (`attempt_place_case`), the placement commit
(`add_case_to_tote_and_update_state`), the finalizer
(`finalize_and_store_tote`) and the driver loop
(`run_simulation_for_visualization_data`), together with proofs of the
specified properties.

Modelling conventions: Python ints and the (integer-valued) floats that
flow through the height map are `Int`; utilization percentages are `ℚ`
(Python float division; all inputs here are exact); Python `None` fields
are `Option`; the mutable height map list-of-lists is a function
`Nat → Nat → Int` indexed `x y` exactly as `height_map[x][y]`; the
driver's mutable locals form the record `SimState` and the per-item loop
body is the state-transformer `process_case`.
-/

namespace BinPacking

/-- Tote configuration dictionary as built by the caller (`app.py`,
`dynamic_tote_config`). -/
structure ToteConfig where
  TOTE_MAX_LENGTH : Int
  TOTE_MAX_WIDTH : Int
  TOTE_MAX_HEIGHT : Int
  TOTE_MAX_VOLUME : Int
  GRID_DIM_X : Nat
  GRID_DIM_Y : Nat
  HEIGHT_MAP_RESOLUTION : Int

/-- Case (item) object as produced by `core_utils.get_case_properties`
and later mutated by the commit. Python `None` placement fields are
`Option`. -/
structure Case where
  sku : String
  original_dims : Int × Int × Int
  volume : Int
  orientations : List (Int × Int × Int)
  chosen_orientation_dims : Option (Int × Int × Int)
  position_in_tote_grid : Option (Nat × Nat)
  placement_z_level : Option Int
  interim_tote_utilization_at_placement : ℚ

/-- Tote object as produced by `core_utils.create_new_empty_tote`.
The height map `height_map[x][y]` is the function `height_map x y`. -/
structure Tote where
  id : Nat
  max_length : Int
  max_width : Int
  max_height : Int
  max_volume : Int
  grid_dim_x : Nat
  grid_dim_y : Nat
  height_map_resolution : Int
  items : List Case
  remaining_volume : Int
  height_map : Nat → Nat → Int
  utilization_percent : ℚ

/-- Successful-placement payload of the dictionary returned by
`attempt_place_case`; the `can_fit` flag is the `Option` wrapper around
this record (`none` = `can_fit: False`). -/
structure PlacementInfo where
  chosen_orientation_dims : Int × Int × Int
  position_in_tote_grid : Nat × Nat
  placement_z_level : Int
deriving DecidableEq, Repr

/-- `core_utils.create_new_empty_tote` (core_utils.py lines 3-19). -/
def create_new_empty_tote (tote_id : Nat) (tote_config : ToteConfig) : Tote :=
  { id := tote_id
    max_length := tote_config.TOTE_MAX_LENGTH
    max_width := tote_config.TOTE_MAX_WIDTH
    max_height := tote_config.TOTE_MAX_HEIGHT
    max_volume := tote_config.TOTE_MAX_VOLUME
    grid_dim_x := tote_config.GRID_DIM_X
    grid_dim_y := tote_config.GRID_DIM_Y
    height_map_resolution := tote_config.HEIGHT_MAP_RESOLUTION
    items := []
    remaining_volume := tote_config.TOTE_MAX_VOLUME
    height_map := fun _ _ => 0
    utilization_percent := 0 }

/-- `core_utils.get_case_properties` (core_utils.py lines 21-38).
Note that `volume` is `max(1, length*width*height)` computed from the
raw dimensions, while the stored dimensions are clamped per component. -/
def get_case_properties (sku : String) (length width height : Int) : Case :=
  let volume := length * width * height
  let orientations : List (Int × Int × Int) :=
    [(length, width, height), (length, height, width),
     (width, length, height), (width, height, length),
     (height, length, width), (height, width, length)]
  let orientations := orientations.map (fun o => (max 1 o.1, max 1 o.2.1, max 1 o.2.2))
  { sku := sku
    original_dims := (max 1 length, max 1 width, max 1 height)
    volume := max 1 volume
    orientations := orientations
    chosen_orientation_dims := none
    position_in_tote_grid := none
    placement_z_level := none
    interim_tote_utilization_at_placement := 0 }

/-- Footprint size in grid cells: `max(1, math.ceil(dim / resolution))`
(simulation.py lines 21-22 and 59-60). The exact ceiling of the rational
`dim / res` is `-⌊-dim / res⌋`, written with integer floor division;
the identity holds for every `res ≠ 0` (`res = 0` raises in Python and
is outside the modelled configurations, which require a positive
resolution). -/
def gridLen (dim res : Int) : Nat :=
  (max 1 (-((-dim).fdiv res))).toNat

/-- Cells scanned for a footprint of `gl × gw` cells anchored at
`(sx, sy)`, in the loop order of simulation.py lines 28-31
(`R_offset` over the width outer, `C_offset` over the length inner);
cell `(sx + C_offset, sy + R_offset)`. -/
def footprintCells (gl gw sx sy : Nat) : List (Nat × Nat) :=
  (List.range gw).flatMap (fun r => (List.range gl).map (fun c => (sx + c, sy + r)))

/-- Bounds check of simulation.py lines 32-34 over the whole footprint
(the Python loop breaks early on the first failure; the scanned set is
the same). -/
def footprint_valid (t : Tote) (gl gw sx sy : Nat) : Bool :=
  (footprintCells gl gw sx sy).all
    (fun cell => decide (cell.1 < t.grid_dim_x ∧ cell.2 < t.grid_dim_y))

/-- Base level of a candidate: running `max` of the height-map values
over the footprint starting from `0.0` (simulation.py lines 26 and 35). -/
def base_z (t : Tote) (gl gw sx sy : Nat) : Int :=
  ((footprintCells gl gw sx sy).map (fun cell => t.height_map cell.1 cell.2)).foldl max 0

/-- Candidates of the search: an orientation together with an anchor
`(sx, sy)`. -/
abbrev SearchCand := (Int × Int × Int) × Nat × Nat

/-- Footprint length in cells of a candidate's orientation. -/
def candGL (t : Tote) (cand : SearchCand) : Nat :=
  gridLen cand.1.1 t.height_map_resolution

/-- Footprint width in cells of a candidate's orientation. -/
def candGW (t : Tote) (cand : SearchCand) : Nat :=
  gridLen cand.1.2.1 t.height_map_resolution

/-- Base level of a candidate (simulation.py lines 26-35). -/
def candZ (t : Tote) (cand : SearchCand) : Int :=
  base_z t (candGL t cand) (candGW t cand) cand.2.1 cand.2.2

/-- Admissibility of a candidate: footprint in bounds (line 37) and
`base_z + oriented_height <= max_height` (line 39). -/
def candAdmissible (t : Tote) (cand : SearchCand) : Bool :=
  footprint_valid t (candGL t cand) (candGW t cand) cand.2.1 cand.2.2 &&
    decide (candZ t cand + cand.1.2.2 ≤ t.max_height)

/-- Placement record built for a winning candidate
(simulation.py lines 41-46). -/
def candPlacement (t : Tote) (cand : SearchCand) : PlacementInfo :=
  { chosen_orientation_dims := cand.1
    position_in_tote_grid := (cand.2.1, cand.2.2)
    placement_z_level := candZ t cand }

/-- Strict-improvement test of simulation.py line 40; the initial best
has `placement_z_level = float('inf')` (line 16), modelled by `none`. -/
def beatsBest (z : Int) (best : Option PlacementInfo) : Bool :=
  match best with
  | none => true
  | some b => decide (z < b.placement_z_level)

/-- Body of one search-loop iteration (simulation.py lines 26-46):
skip the candidate unless its footprint is valid, it is admissible, and
it strictly beats the running best; otherwise replace the best. -/
def consider (t : Tote) (cand : SearchCand) (best : Option PlacementInfo) :
    Option PlacementInfo :=
  if candAdmissible t cand && beatsBest (candZ t cand) best then
    some (candPlacement t cand)
  else best

/-- `simulation.attempt_place_case` (simulation.py lines 7-47): fold of
the loop body over orientations (outer, fixed list order), then anchor
rows `start_grid_y` (outer) and columns `start_grid_x` (inner); Python's
`range(n)` on a possibly negative `n` is `List.range` of the truncated
`Nat` subtraction. -/
def attempt_place_case (case_obj : Case) (tote_obj : Tote) : Option PlacementInfo :=
  case_obj.orientations.foldl (fun best o =>
    let case_grid_L := gridLen o.1 tote_obj.height_map_resolution
    let case_grid_W := gridLen o.2.1 tote_obj.height_map_resolution
    (List.range (tote_obj.grid_dim_y + 1 - case_grid_W)).foldl (fun best start_grid_y =>
      (List.range (tote_obj.grid_dim_x + 1 - case_grid_L)).foldl (fun best start_grid_x =>
        consider tote_obj (o, start_grid_x, start_grid_y) best) best) best) none

/-- Same search with the tote threaded through every loop iteration as
an explicit store, mirroring that the Python body of
`attempt_place_case` only ever reads `tote_obj` (no statement assigns
into it), so each iteration returns the store it received. -/
def attempt_place_case_with_state (case_obj : Case) (tote_obj : Tote) :
    Option PlacementInfo × Tote :=
  case_obj.orientations.foldl (fun acc o =>
    let case_grid_L := gridLen o.1 acc.2.height_map_resolution
    let case_grid_W := gridLen o.2.1 acc.2.height_map_resolution
    (List.range (acc.2.grid_dim_y + 1 - case_grid_W)).foldl (fun acc start_grid_y =>
      (List.range (acc.2.grid_dim_x + 1 - case_grid_L)).foldl (fun acc start_grid_x =>
        (consider acc.2 (o, start_grid_x, start_grid_y) acc.1, acc.2)) acc) acc)
    (none, tote_obj)

/-- Single cell overwrite `height_map[a][b] = v`. -/
def pointUpdate (hm : Nat → Nat → Int) (a b : Nat) (v : Int) : Nat → Nat → Int :=
  fun x y => if x = a ∧ y = b then v else hm x y

/-- Height-map update loop of the commit (simulation.py lines 62-68):
write `v` into every footprint cell that passes the bounds check. -/
def writeFootprint (gx gy : Nat) (cells : List (Nat × Nat)) (v : Int)
    (hm : Nat → Nat → Int) : Nat → Nat → Int :=
  cells.foldl (fun m cell =>
    if cell.1 < gx ∧ cell.2 < gy then pointUpdate m cell.1 cell.2 v else m) hm

/-- `simulation.add_case_to_tote_and_update_state` (simulation.py lines
49-78), returning the updated case and tote. Python appends the mutable
case dict to `tote["items"]` and only afterwards writes the utilization
snapshot onto it; since list entry and local are aliases, the stored
item carries the snapshot, so the final case value is built first here.
The Python guard `len(tote_obj["items"]) > 0` is evaluated after the
append, hence on `items.length + 1`. -/
def add_case_to_tote_and_update_state (case_obj : Case) (tote_obj : Tote)
    (placement_details : PlacementInfo) : Case × Tote :=
  let oriented := placement_details.chosen_orientation_dims
  let pos := placement_details.position_in_tote_grid
  let new_surface_height := placement_details.placement_z_level + oriented.2.2
  let case_grid_L := gridLen oriented.1 tote_obj.height_map_resolution
  let case_grid_W := gridLen oriented.2.1 tote_obj.height_map_resolution
  let new_height_map :=
    writeFootprint tote_obj.grid_dim_x tote_obj.grid_dim_y
      (footprintCells case_grid_L case_grid_W pos.1 pos.2) new_surface_height
      tote_obj.height_map
  let new_remaining := tote_obj.remaining_volume - case_obj.volume
  let utilized_volume_now := tote_obj.max_volume - new_remaining
  let current_util_percent_now : ℚ :=
    if 0 < tote_obj.max_volume ∧ 0 < tote_obj.items.length + 1 then
      (utilized_volume_now : ℚ) / (tote_obj.max_volume : ℚ) * 100
    else 0
  let placed_case :=
    { case_obj with
        chosen_orientation_dims := some oriented
        position_in_tote_grid := some pos
        placement_z_level := some placement_details.placement_z_level
        interim_tote_utilization_at_placement := current_util_percent_now }
  (placed_case,
   { tote_obj with
       height_map := new_height_map
       items := tote_obj.items ++ [placed_case]
       remaining_volume := new_remaining })

/-- `simulation.finalize_and_store_tote` (simulation.py lines 80-87):
set the final utilization and append a snapshot (Python deep-copies; a
Lean value is already immutable) to the target list. Returns the
finalized tote and the extended list. -/
def finalize_and_store_tote (tote_obj : Tote) (target_list : List Tote) :
    Tote × List Tote :=
  let util : ℚ :=
    if 0 < tote_obj.max_volume ∧ 0 < tote_obj.items.length then
      ((tote_obj.max_volume : ℚ) - (tote_obj.remaining_volume : ℚ)) /
        (tote_obj.max_volume : ℚ) * 100
    else 0
  let finalized := { tote_obj with utilization_percent := util }
  (finalized, target_list ++ [finalized])

/-- Raw input record of the driver's `case_data_list`. -/
structure RawCase where
  sku : String
  length : Int
  width : Int
  height : Int

/-- Entry of `unplaceable_cases_log` (simulation.py lines 171 and 213). -/
structure UnplaceableEntry where
  sku : String
  reason : String
deriving DecidableEq, Repr

/-- Mutable locals of `run_simulation_for_visualization_data` that carry
the packing state across loop iterations (simulation.py lines 126-134).
The Python variable `next_tote_id` always equals the id of the currently
open tote. -/
structure SimState where
  all_processed_totes_full_data : List Tote
  unplaceable_cases_log : List UnplaceableEntry
  next_tote_id : Nat
  current_tote : Tote

/-- Fallback path of the driver loop (simulation.py lines 190-213):
finalize the current tote, open a fresh tote with the next id, retry
search plus the volumetric gate once, and on failure log the item. -/
def second_tote_attempt (cfg : ToteConfig) (s : SimState) (current_case : Case) :
    SimState :=
  let finalized := finalize_and_store_tote s.current_tote s.all_processed_totes_full_data
  let next_tote_id := s.next_tote_id + 1
  let fresh_tote := create_new_empty_tote next_tote_id cfg
  match attempt_place_case current_case fresh_tote with
  | some details =>
    if current_case.volume ≤ fresh_tote.remaining_volume then
      { all_processed_totes_full_data := finalized.2
        unplaceable_cases_log := s.unplaceable_cases_log
        next_tote_id := next_tote_id
        current_tote := (add_case_to_tote_and_update_state current_case fresh_tote details).2 }
    else
      { all_processed_totes_full_data := finalized.2
        unplaceable_cases_log := s.unplaceable_cases_log ++
          [{ sku := current_case.sku,
             reason := "Could not fit new empty tote (insufficient volume (unexpected))" }]
        next_tote_id := next_tote_id
        current_tote := fresh_tote }
  | none =>
      { all_processed_totes_full_data := finalized.2
        unplaceable_cases_log := s.unplaceable_cases_log ++
          [{ sku := current_case.sku,
             reason := "Could not fit new empty tote (no spatial fit)" }]
        next_tote_id := next_tote_id
        current_tote := fresh_tote }

/-- Body of the driver's per-item loop (simulation.py lines 146-213; the
progress yields and the visualization rebuild, lines 215-268, read but
never write this state). -/
def process_case (cfg : ToteConfig) (s : SimState) (case_raw_data : RawCase) :
    SimState :=
  let current_case := get_case_properties case_raw_data.sku case_raw_data.length
    case_raw_data.width case_raw_data.height
  let is_fundamentally_too_large_vol := decide (cfg.TOTE_MAX_VOLUME < current_case.volume)
  let can_orient_to_fit_empty_tote_dims := current_case.orientations.any (fun o =>
    decide (o.1 ≤ cfg.TOTE_MAX_LENGTH) && decide (o.2.1 ≤ cfg.TOTE_MAX_WIDTH) &&
      decide (o.2.2 ≤ cfg.TOTE_MAX_HEIGHT))
  if is_fundamentally_too_large_vol || !can_orient_to_fit_empty_tote_dims then
    { s with unplaceable_cases_log := s.unplaceable_cases_log ++
        [{ sku := current_case.sku,
           reason := "Fundamentally too large (" ++
             (if is_fundamentally_too_large_vol then "volume" else "dimensions") ++ ")" }] }
  else
    match attempt_place_case current_case s.current_tote with
    | some details =>
      if current_case.volume ≤ s.current_tote.remaining_volume then
        { s with current_tote :=
            (add_case_to_tote_and_update_state current_case s.current_tote details).2 }
      else second_tote_attempt cfg s current_case
    | none => second_tote_attempt cfg s current_case

/-- Driver state before the loop (simulation.py lines 126-134). -/
def initial_sim_state (cfg : ToteConfig) : SimState :=
  { all_processed_totes_full_data := []
    unplaceable_cases_log := []
    next_tote_id := 1
    current_tote := create_new_empty_tote 1 cfg }

/-- `simulation.run_simulation_for_visualization_data` restricted to its
packing state: fold the loop body over the item stream and apply the
end-of-stream finalization (simulation.py lines 271-278). The Python
guard `current_tote and (...)` is always entered since the tote dict is
non-empty. -/
def run_simulation_for_visualization_data (case_data_list : List RawCase)
    (cfg : ToteConfig) : SimState :=
  let s := case_data_list.foldl (process_case cfg) (initial_sim_state cfg)
  if 0 < s.current_tote.items.length ∨
      (s.current_tote.id = 1 ∧ s.all_processed_totes_full_data.isEmpty) then
    { s with all_processed_totes_full_data :=
        (finalize_and_store_tote s.current_tote s.all_processed_totes_full_data).2 }
  else s

/-! ### Search characterization: candidate lists and first-minimum selection -/

/-- All candidates scanned by `attempt_place_case`, in scan order:
orientations in list order, then anchors row-major (`start_grid_y`
outer, `start_grid_x` inner). -/
def searchCandidates (case_obj : Case) (tote_obj : Tote) : List SearchCand :=
  case_obj.orientations.flatMap (fun o =>
    (List.range (tote_obj.grid_dim_y + 1 - gridLen o.2.1 tote_obj.height_map_resolution)).flatMap
      (fun start_grid_y =>
        (List.range (tote_obj.grid_dim_x + 1 - gridLen o.1 tote_obj.height_map_resolution)).map
          (fun start_grid_x => (o, start_grid_x, start_grid_y))))

/-- The admissible placements, in scan order. -/
def admissiblePlacements (case_obj : Case) (tote_obj : Tote) : List PlacementInfo :=
  ((searchCandidates case_obj tote_obj).filter (candAdmissible tote_obj)).map
    (candPlacement tote_obj)

/-- First element of the list achieving the minimal `placement_z_level`
(later elements must beat it strictly). -/
def pickFirstMin : List PlacementInfo → Option PlacementInfo
  | [] => none
  | p :: ps =>
    match pickFirstMin ps with
    | none => some p
    | some q => if q.placement_z_level < p.placement_z_level then some q else some p

/-- Combine a running best with the winner among later candidates. -/
def mergeBest (b q : Option PlacementInfo) : Option PlacementInfo :=
  match q with
  | none => b
  | some q => if beatsBest q.placement_z_level b then some q else b

theorem foldl_flatMap_eq {α β γ : Type _} (g : α → List β) (f : γ → β → γ) :
    ∀ (l : List α) (b : γ),
      (l.flatMap g).foldl f b = l.foldl (fun b a => (g a).foldl f b) b := by
  intro l
  induction l with
  | nil => intro b; rfl
  | cons a l ih =>
    intro b
    simp only [List.flatMap_cons, List.foldl_append, List.foldl_cons, ih]

theorem pickFirstMin_eq_none_iff (l : List PlacementInfo) :
    pickFirstMin l = none ↔ l = [] := by
  cases l with
  | nil => simp [pickFirstMin]
  | cons p ps =>
    simp only [pickFirstMin]
    constructor
    · intro h
      cases hps : pickFirstMin ps with
      | none => rw [hps] at h; exact absurd h (by simp)
      | some q => rw [hps] at h; by_cases hq : q.placement_z_level < p.placement_z_level <;>
          simp [hq] at h
    · intro h; exact absurd h (by simp)

theorem pickFirstMin_spec :
    ∀ {l : List PlacementInfo} {p : PlacementInfo}, pickFirstMin l = some p →
      ∃ l₁ l₂, l = l₁ ++ p :: l₂ ∧
        (∀ q ∈ l₁, p.placement_z_level < q.placement_z_level) ∧
        (∀ q ∈ l, p.placement_z_level ≤ q.placement_z_level) := by
  intro l
  induction l with
  | nil => intro p h; exact absurd h (by simp [pickFirstMin])
  | cons a l ih =>
    intro p h
    cases hl : pickFirstMin l with
    | none =>
      simp only [pickFirstMin, hl, Option.some.injEq] at h
      have hnil : l = [] := (pickFirstMin_eq_none_iff l).mp hl
      subst hnil
      subst h
      exact ⟨[], [], rfl, by simp, by simp⟩
    | some q =>
      simp only [pickFirstMin, hl] at h
      by_cases hq : q.placement_z_level < a.placement_z_level
      · rw [if_pos hq] at h
        obtain rfl : q = p := Option.some_inj.mp h
        obtain ⟨l₁, l₂, rfl, hfirst, hmin⟩ := ih hl
        refine ⟨a :: l₁, l₂, rfl, ?_, ?_⟩
        · intro r hr
          rcases List.mem_cons.mp hr with rfl | hr
          · exact hq
          · exact hfirst r hr
        · intro r hr
          rcases List.mem_cons.mp hr with rfl | hr
          · exact le_of_lt hq
          · exact hmin r hr
      · rw [if_neg hq] at h
        obtain rfl : a = p := Option.some_inj.mp h
        obtain ⟨l₁, l₂, hdec, hfirst, hmin⟩ := ih hl
        refine ⟨[], l, rfl, by simp, ?_⟩
        intro r hr
        rcases List.mem_cons.mp hr with rfl | hr
        · exact le_refl _
        · exact le_trans (not_lt.mp hq) (hmin r hr)

theorem scan_eq_mergeBest (t : Tote) :
    ∀ (l : List SearchCand) (b : Option PlacementInfo),
      l.foldl (fun best cand => consider t cand best) b =
        mergeBest b (pickFirstMin ((l.filter (candAdmissible t)).map (candPlacement t))) := by
  intro l
  induction l with
  | nil => intro b; cases b <;> rfl
  | cons cand l ih =>
    intro b
    rw [List.foldl_cons, ih]
    by_cases hadm : candAdmissible t cand = true
    · have hz : (candPlacement t cand).placement_z_level = candZ t cand := rfl
      rw [List.filter_cons_of_pos hadm, List.map_cons]
      cases hbeats : beatsBest (candZ t cand) b with
      | true =>
        have hcons : consider t cand b = some (candPlacement t cand) := by
          simp [consider, hadm, hbeats]
        rw [hcons]
        cases hpfm : pickFirstMin ((l.filter (candAdmissible t)).map (candPlacement t)) with
        | none =>
          simp only [pickFirstMin, hpfm, mergeBest, hz, hbeats]
          simp
        | some q =>
          by_cases hlt : q.placement_z_level < (candPlacement t cand).placement_z_level
          · have hqb : beatsBest q.placement_z_level b = true := by
              cases b with
              | none => rfl
              | some p0 =>
                simp only [beatsBest, decide_eq_true_eq] at hbeats ⊢
                exact lt_trans (hz ▸ hlt) hbeats
            simp only [pickFirstMin, hpfm]
            rw [if_pos hlt]
            simp only [mergeBest]
            rw [hqb]
            simp [beatsBest, hlt]
          · simp only [pickFirstMin, hpfm]
            rw [if_neg hlt]
            simp only [mergeBest, hz, hbeats]
            simp [beatsBest, hlt]
      | false =>
        have hcons : consider t cand b = b := by
          simp [consider, hadm, hbeats]
        rw [hcons]
        obtain ⟨p0, rfl⟩ : ∃ p0, b = some p0 := by
          cases b with
          | none => exact absurd hbeats (by simp [beatsBest])
          | some p0 => exact ⟨p0, rfl⟩
        have hle : p0.placement_z_level ≤ candZ t cand := by
          simpa [beatsBest, decide_eq_true_eq, not_lt] using hbeats
        cases hpfm : pickFirstMin ((l.filter (candAdmissible t)).map (candPlacement t)) with
        | none =>
          simp only [pickFirstMin, hpfm, mergeBest]
          simp [beatsBest, hz, not_lt.mpr hle]
        | some q =>
          by_cases hlt : q.placement_z_level < (candPlacement t cand).placement_z_level
          · simp only [pickFirstMin, hpfm]
            rw [if_pos hlt]
          · have hqz : ¬ q.placement_z_level < p0.placement_z_level :=
              not_lt.mpr (le_trans hle (hz ▸ not_lt.mp hlt))
            simp only [pickFirstMin, hpfm]
            rw [if_neg hlt]
            simp [mergeBest, beatsBest, hz, hqz, not_lt.mpr hle]
    · have hfalse : candAdmissible t cand = false := by
        simpa using hadm
      have hcons : consider t cand b = b := by
        simp [consider, hfalse]
      rw [hcons, List.filter_cons_of_neg (by simp [hfalse])]

theorem attempt_place_case_eq_scan (case_obj : Case) (tote_obj : Tote) :
    attempt_place_case case_obj tote_obj =
      (searchCandidates case_obj tote_obj).foldl
        (fun best cand => consider tote_obj cand best) none := by
  unfold attempt_place_case searchCandidates
  rw [foldl_flatMap_eq]
  congr 1
  funext best o
  simp only [foldl_flatMap_eq, List.foldl_map]

theorem attempt_place_case_eq_pickFirstMin (case_obj : Case) (tote_obj : Tote) :
    attempt_place_case case_obj tote_obj =
      pickFirstMin (admissiblePlacements case_obj tote_obj) := by
  rw [attempt_place_case_eq_scan, scan_eq_mergeBest]
  unfold admissiblePlacements
  cases pickFirstMin
      (((searchCandidates case_obj tote_obj).filter (candAdmissible tote_obj)).map
        (candPlacement tote_obj)) with
  | none => rfl
  | some q => simp [mergeBest, beatsBest]

theorem searchCandidates_mem_elim {case_obj : Case} {tote_obj : Tote}
    {o : Int × Int × Int} {sx sy : Nat}
    (h : ((o, sx, sy) : SearchCand) ∈ searchCandidates case_obj tote_obj) :
    o ∈ case_obj.orientations ∧
      sx + gridLen o.1 tote_obj.height_map_resolution ≤ tote_obj.grid_dim_x ∧
      sy + gridLen o.2.1 tote_obj.height_map_resolution ≤ tote_obj.grid_dim_y := by
  simp only [searchCandidates, List.mem_flatMap, List.mem_map, List.mem_range] at h
  obtain ⟨o', ho', sy', hsy', sx', hsx', heq⟩ := h
  obtain ⟨rfl, rfl, rfl⟩ : o' = o ∧ sx' = sx ∧ sy' = sy := by
    simpa [Prod.ext_iff] using heq
  exact ⟨ho', by omega, by omega⟩

theorem admissiblePlacements_mem_elim {case_obj : Case} {tote_obj : Tote}
    {pd : PlacementInfo} (h : pd ∈ admissiblePlacements case_obj tote_obj) :
    ∃ o sx sy, pd = candPlacement tote_obj (o, sx, sy) ∧
      ((o, sx, sy) : SearchCand) ∈ searchCandidates case_obj tote_obj ∧
      candAdmissible tote_obj (o, sx, sy) = true := by
  simp only [admissiblePlacements, List.mem_map, List.mem_filter] at h
  obtain ⟨⟨o, sx, sy⟩, ⟨hmem, hadm⟩, rfl⟩ := h
  exact ⟨o, sx, sy, rfl, hmem, hadm⟩

/-- Facts every successful search result satisfies, phrased over the
returned record's own fields: the chosen orientation is one of the
case's orientations, the anchored footprint fits inside the grid, the
recorded level is the footprint's `base_z`, and the height cap holds. -/
theorem attempt_place_case_some_facts {case_obj : Case} {tote_obj : Tote}
    {pd : PlacementInfo} (h : attempt_place_case case_obj tote_obj = some pd) :
    pd.chosen_orientation_dims ∈ case_obj.orientations ∧
    pd.position_in_tote_grid.1 +
        gridLen pd.chosen_orientation_dims.1 tote_obj.height_map_resolution ≤
      tote_obj.grid_dim_x ∧
    pd.position_in_tote_grid.2 +
        gridLen pd.chosen_orientation_dims.2.1 tote_obj.height_map_resolution ≤
      tote_obj.grid_dim_y ∧
    footprint_valid tote_obj
        (gridLen pd.chosen_orientation_dims.1 tote_obj.height_map_resolution)
        (gridLen pd.chosen_orientation_dims.2.1 tote_obj.height_map_resolution)
        pd.position_in_tote_grid.1 pd.position_in_tote_grid.2 = true ∧
    pd.placement_z_level =
      base_z tote_obj
        (gridLen pd.chosen_orientation_dims.1 tote_obj.height_map_resolution)
        (gridLen pd.chosen_orientation_dims.2.1 tote_obj.height_map_resolution)
        pd.position_in_tote_grid.1 pd.position_in_tote_grid.2 ∧
    pd.placement_z_level + pd.chosen_orientation_dims.2.2 ≤ tote_obj.max_height := by
  rw [attempt_place_case_eq_pickFirstMin] at h
  obtain ⟨l₁, l₂, hdec, -, -⟩ := pickFirstMin_spec h
  have hmem : pd ∈ admissiblePlacements case_obj tote_obj := by rw [hdec]; simp
  obtain ⟨o, sx, sy, rfl, hsc, hadm⟩ := admissiblePlacements_mem_elim hmem
  obtain ⟨ho, hx, hy⟩ := searchCandidates_mem_elim hsc
  rw [candAdmissible, Bool.and_eq_true, decide_eq_true_eq] at hadm
  refine ⟨ho, hx, hy, ?_, rfl, ?_⟩
  · simpa [candGL, candGW] using hadm.1
  · simpa [candPlacement, candZ, candGL, candGW] using hadm.2

/-- C1: `attempt_place_case` returns `can_fit = false` exactly when no
candidate (orientation in fixed order, anchors row-major with the
footprint inside the grid, `base_z` the footprint maximum, admissible
iff `base_z + oriented_height ≤ max_height`) is admissible, and
otherwise returns an admissible candidate of minimal `base_z` that is
the first one found in enumeration order: every admissible candidate
scanned before it has a strictly larger `base_z`. -/
theorem attempt_place_case_returns_first_lowest (case_obj : Case) (tote_obj : Tote) :
    (attempt_place_case case_obj tote_obj = none ↔
      admissiblePlacements case_obj tote_obj = []) ∧
    ∀ pd, attempt_place_case case_obj tote_obj = some pd →
      ∃ l₁ l₂, admissiblePlacements case_obj tote_obj = l₁ ++ pd :: l₂ ∧
        (∀ q ∈ l₁, pd.placement_z_level < q.placement_z_level) ∧
        (∀ q ∈ admissiblePlacements case_obj tote_obj,
          pd.placement_z_level ≤ q.placement_z_level) := by
  constructor
  · rw [attempt_place_case_eq_pickFirstMin]
    exact pickFirstMin_eq_none_iff _
  · intro pd h
    rw [attempt_place_case_eq_pickFirstMin] at h
    exact pickFirstMin_spec h

/-- Concrete 2×2-cell tote configuration used by witnesses. -/
def cfgW : ToteConfig :=
  { TOTE_MAX_LENGTH := 200, TOTE_MAX_WIDTH := 200, TOTE_MAX_HEIGHT := 200,
    TOTE_MAX_VOLUME := 8000000, GRID_DIM_X := 2, GRID_DIM_Y := 2,
    HEIGHT_MAP_RESOLUTION := 100 }

/-- Concrete empty tote used by witnesses. -/
def toteW : Tote := create_new_empty_tote 1 cfgW

/-- Concrete case used by witnesses. -/
def caseW : Case := get_case_properties "W" 100 100 100

/-- Concrete placement returned by the search for `caseW` in `toteW`. -/
def pdW : PlacementInfo :=
  { chosen_orientation_dims := (100, 100, 100)
    position_in_tote_grid := (0, 0)
    placement_z_level := 0 }

/-- Witness for C1 at a concrete input. -/
theorem attempt_place_case_returns_first_lowest_witness :
    ∃ l₁ l₂, admissiblePlacements caseW toteW = l₁ ++ pdW :: l₂ ∧
      (∀ q ∈ l₁, pdW.placement_z_level < q.placement_z_level) ∧
      (∀ q ∈ admissiblePlacements caseW toteW,
        pdW.placement_z_level ≤ q.placement_z_level) :=
  (attempt_place_case_returns_first_lowest caseW toteW).2 pdW (by decide)

/-! ### Search purity -/

theorem foldl_snd_fixed {α β σ : Type _} (g : β → σ → α → β) :
    ∀ (l : List α) (b : β) (t : σ),
      l.foldl (fun acc a => (g acc.1 acc.2 a, acc.2)) (b, t) =
        (l.foldl (fun x a => g x t a) b, t) := by
  intro l
  induction l with
  | nil => intro b t; rfl
  | cons a l ih => intro b t; simp only [List.foldl_cons]; exact ih _ _

theorem attempt_place_case_with_state_spec (case_obj : Case) (tote_obj : Tote) :
    attempt_place_case_with_state case_obj tote_obj =
      (attempt_place_case case_obj tote_obj, tote_obj) := by
  have hinner : ∀ (t : Tote) (o : Int × Int × Int) (sy : Nat) (l : List Nat)
      (b : Option PlacementInfo),
      l.foldl (fun acc sx => (consider acc.2 (o, sx, sy) acc.1, acc.2)) (b, t) =
        (l.foldl (fun best sx => consider t (o, sx, sy) best) b, t) :=
    fun t o sy l b => foldl_snd_fixed (fun x s sx => consider s (o, sx, sy) x) l b t
  have hmid : ∀ (t : Tote) (o : Int × Int × Int) (gl : Nat) (l : List Nat)
      (b : Option PlacementInfo),
      l.foldl (fun acc start_grid_y =>
          (List.range (acc.2.grid_dim_x + 1 - gl)).foldl
            (fun acc start_grid_x =>
              (consider acc.2 (o, start_grid_x, start_grid_y) acc.1, acc.2)) acc) (b, t) =
        (l.foldl (fun best start_grid_y =>
          (List.range (t.grid_dim_x + 1 - gl)).foldl
            (fun best start_grid_x =>
              consider t (o, start_grid_x, start_grid_y) best) best) b, t) := by
    intro t o gl l
    induction l with
    | nil => intro b; rfl
    | cons sy l ih =>
      intro b
      simp only [List.foldl_cons]
      rw [hinner]
      exact ih _
  have houter : ∀ (t : Tote) (l : List (Int × Int × Int)) (b : Option PlacementInfo),
      l.foldl (fun acc o =>
          let case_grid_L := gridLen o.1 acc.2.height_map_resolution
          let case_grid_W := gridLen o.2.1 acc.2.height_map_resolution
          (List.range (acc.2.grid_dim_y + 1 - case_grid_W)).foldl
            (fun acc start_grid_y =>
              (List.range (acc.2.grid_dim_x + 1 - case_grid_L)).foldl
                (fun acc start_grid_x =>
                  (consider acc.2 (o, start_grid_x, start_grid_y) acc.1, acc.2)) acc) acc)
        (b, t) =
        (l.foldl (fun best o =>
          let case_grid_L := gridLen o.1 t.height_map_resolution
          let case_grid_W := gridLen o.2.1 t.height_map_resolution
          (List.range (t.grid_dim_y + 1 - case_grid_W)).foldl
            (fun best start_grid_y =>
              (List.range (t.grid_dim_x + 1 - case_grid_L)).foldl
                (fun best start_grid_x =>
                  consider t (o, start_grid_x, start_grid_y) best) best) best) b, t) := by
    intro t l
    induction l with
    | nil => intro b; rfl
    | cons o os ih =>
      intro b
      simp only [List.foldl_cons]
      rw [hmid]
      exact ih _
  exact houter tote_obj case_obj.orientations none

/-- C8: the search never writes to the tote — threading the tote
through every loop iteration as an explicit store returns it unchanged
and yields the same result as the pure search, and invoking the search
again on the state it returns gives an identical result. -/
theorem attempt_place_case_pure (case_obj : Case) (tote_obj : Tote) :
    (attempt_place_case_with_state case_obj tote_obj).2 = tote_obj ∧
    (attempt_place_case_with_state case_obj tote_obj).1 =
      attempt_place_case case_obj tote_obj ∧
    attempt_place_case_with_state case_obj
        (attempt_place_case_with_state case_obj tote_obj).2 =
      attempt_place_case_with_state case_obj tote_obj := by
  rw [attempt_place_case_with_state_spec]
  exact ⟨rfl, rfl, by simpa using attempt_place_case_with_state_spec case_obj tote_obj⟩

/-! ### Footprint and commit lemmas -/

theorem mem_footprintCells {gl gw sx sy x y : Nat} :
    (x, y) ∈ footprintCells gl gw sx sy ↔
      sx ≤ x ∧ x < sx + gl ∧ sy ≤ y ∧ y < sy + gw := by
  simp only [footprintCells, List.mem_flatMap, List.mem_map, List.mem_range, Prod.mk.injEq]
  constructor
  · rintro ⟨r, hr, c, hc, rfl, rfl⟩
    omega
  · rintro ⟨h1, h2, h3, h4⟩
    exact ⟨y - sy, by omega, x - sx, by omega, by omega, by omega⟩

theorem writeFootprint_apply (gx gy : Nat) (v : Int) :
    ∀ (cells : List (Nat × Nat)) (hm : Nat → Nat → Int) (x y : Nat),
      writeFootprint gx gy cells v hm x y =
        if (x, y) ∈ cells ∧ x < gx ∧ y < gy then v else hm x y := by
  intro cells
  induction cells with
  | nil => intro hm x y; simp [writeFootprint]
  | cons c cs ih =>
    intro hm x y
    obtain ⟨cx, cy⟩ := c
    rw [show writeFootprint gx gy ((cx, cy) :: cs) v hm =
        writeFootprint gx gy cs v
          (if cx < gx ∧ cy < gy then pointUpdate hm cx cy v else hm) from rfl, ih]
    by_cases hxy : (x, y) ∈ cs ∧ x < gx ∧ y < gy
    · rw [if_pos hxy, if_pos ⟨List.mem_cons_of_mem _ hxy.1, hxy.2⟩]
    · rw [if_neg hxy]
      by_cases hc : (x, y) = (cx, cy)
      · injection hc with h1 h2
        subst h1
        subst h2
        by_cases hb : x < gx ∧ y < gy
        · rw [if_pos hb, if_pos ⟨List.mem_cons_self _ _, hb⟩]
          simp [pointUpdate]
        · rw [if_neg hb, if_neg (fun hcontra => hb hcontra.2)]
      · have hne : ¬(x = cx ∧ y = cy) := by
          simpa [Prod.ext_iff] using hc
        have hcond : ¬((x, y) ∈ (cx, cy) :: cs ∧ x < gx ∧ y < gy) := by
          rintro ⟨hmem, hb⟩
          rcases List.mem_cons.mp hmem with heq | hmem2
          · exact hc heq
          · exact hxy ⟨hmem2, hb⟩
        rw [if_neg hcond]
        by_cases hb : cx < gx ∧ cy < gy
        · rw [if_pos hb]
          simp [pointUpdate, hne]
        · rw [if_neg hb]

theorem le_foldl_max_init : ∀ (l : List Int) (a : Int), a ≤ l.foldl max a := by
  intro l
  induction l with
  | nil => intro a; exact le_refl a
  | cons b l ih => intro a; exact le_trans (le_max_left a b) (ih (max a b))

theorem mem_le_foldl_max : ∀ {l : List Int} {v : Int}, v ∈ l → ∀ a, v ≤ l.foldl max a := by
  intro l
  induction l with
  | nil => intro v h; exact absurd h (List.not_mem_nil v)
  | cons b l ih =>
    intro v h a
    rcases List.mem_cons.mp h with rfl | h
    · exact le_trans (le_max_right a v) (le_foldl_max_init l (max a v))
    · exact ih h (max a b)

theorem foldl_max_mem_or : ∀ (l : List Int) (a : Int), l.foldl max a = a ∨ l.foldl max a ∈ l := by
  intro l
  induction l with
  | nil => intro a; exact Or.inl rfl
  | cons b l ih =>
    intro a
    rcases ih (max a b) with h | h
    · rcases max_choice a b with hm | hm
      · exact Or.inl (by rw [List.foldl_cons, h, hm])
      · exact Or.inr (by rw [List.foldl_cons, h, hm]; exact List.mem_cons_self b l)
    · exact Or.inr (List.mem_cons_of_mem b h)

theorem height_le_base_z {t : Tote} {gl gw sx sy x y : Nat}
    (h : (x, y) ∈ footprintCells gl gw sx sy) :
    t.height_map x y ≤ base_z t gl gw sx sy :=
  mem_le_foldl_max (List.mem_map_of_mem (fun cell => t.height_map cell.1 cell.2) h) 0

theorem gridLen_pos (dim res : Int) : 0 < gridLen dim res := by
  have h := le_max_left 1 (-((-dim).fdiv res))
  unfold gridLen
  omega

theorem base_z_attained {t : Tote} {gl gw sx sy : Nat} (hgl : 0 < gl) (hgw : 0 < gw)
    (hnn : ∀ x y, 0 ≤ t.height_map x y) :
    ∃ x y, (x, y) ∈ footprintCells gl gw sx sy ∧
      t.height_map x y = base_z t gl gw sx sy := by
  have hcorner : ((sx, sy) : Nat × Nat) ∈ footprintCells gl gw sx sy :=
    mem_footprintCells.mpr ⟨le_refl sx, by omega, le_refl sy, by omega⟩
  rcases foldl_max_mem_or
      ((footprintCells gl gw sx sy).map (fun cell => t.height_map cell.1 cell.2)) 0 with
    h0 | hmem
  · have hb0 : base_z t gl gw sx sy = 0 := h0
    exact ⟨sx, sy, hcorner, le_antisymm (height_le_base_z hcorner)
      (by rw [hb0]; exact hnn sx sy)⟩
  · obtain ⟨⟨x, y⟩, hcell, hval⟩ := List.mem_map.mp hmem
    exact ⟨x, y, hcell, hval⟩

/-- C4: a commit of a placement produced by a successful search on the
same tote state (whose oriented height is non-negative, as holds for
every driver-built case) never lowers any height-map cell. -/
theorem commit_height_map_monotone {case_obj : Case} {tote_obj : Tote}
    {pd : PlacementInfo}
    (hsearch : attempt_place_case case_obj tote_obj = some pd)
    (hH : 0 ≤ pd.chosen_orientation_dims.2.2) :
    ∀ x y, tote_obj.height_map x y ≤
      ((add_case_to_tote_and_update_state case_obj tote_obj pd).2).height_map x y := by
  obtain ⟨-, -, -, -, hz, -⟩ := attempt_place_case_some_facts hsearch
  intro x y
  show tote_obj.height_map x y ≤
    writeFootprint tote_obj.grid_dim_x tote_obj.grid_dim_y
      (footprintCells (gridLen pd.chosen_orientation_dims.1 tote_obj.height_map_resolution)
        (gridLen pd.chosen_orientation_dims.2.1 tote_obj.height_map_resolution)
        pd.position_in_tote_grid.1 pd.position_in_tote_grid.2)
      (pd.placement_z_level + pd.chosen_orientation_dims.2.2) tote_obj.height_map x y
  rw [writeFootprint_apply]
  split_ifs with h
  · calc tote_obj.height_map x y ≤ _ := height_le_base_z h.1
      _ = pd.placement_z_level := hz.symm
      _ ≤ _ := by omega
  · exact le_refl _

theorem footprint_valid_elim {t : Tote} {gl gw sx sy x y : Nat}
    (hv : footprint_valid t gl gw sx sy = true)
    (h : (x, y) ∈ footprintCells gl gw sx sy) :
    x < t.grid_dim_x ∧ y < t.grid_dim_y := by
  rw [footprint_valid, List.all_eq_true] at hv
  simpa using hv (x, y) h

/-- C2: committing a placement produced by a successful search on the
same unmodified tote raises exactly the footprint cells to
`base_z + oriented_height`, where the recorded level is attained by and
bounds the height map over the footprint (the footprint maximum; the
heights are non-negative in every reachable tote, and the configured
volume is non-negative), leaves all other cells unchanged, appends the
item with its placement fields filled in, subtracts its volume, and
stores the `(max_volume − remaining_volume)/max_volume × 100` snapshot
on the item. -/
theorem commit_effects {case_obj : Case} {tote_obj : Tote} {pd : PlacementInfo}
    (hsearch : attempt_place_case case_obj tote_obj = some pd)
    (hnn : ∀ x y, 0 ≤ tote_obj.height_map x y)
    (hmv : 0 ≤ tote_obj.max_volume) :
    (∀ x y,
      pd.position_in_tote_grid.1 ≤ x →
      x < pd.position_in_tote_grid.1 +
        gridLen pd.chosen_orientation_dims.1 tote_obj.height_map_resolution →
      pd.position_in_tote_grid.2 ≤ y →
      y < pd.position_in_tote_grid.2 +
        gridLen pd.chosen_orientation_dims.2.1 tote_obj.height_map_resolution →
      ((add_case_to_tote_and_update_state case_obj tote_obj pd).2).height_map x y =
        pd.placement_z_level + pd.chosen_orientation_dims.2.2) ∧
    (∃ x y,
      (pd.position_in_tote_grid.1 ≤ x ∧
        x < pd.position_in_tote_grid.1 +
          gridLen pd.chosen_orientation_dims.1 tote_obj.height_map_resolution ∧
        pd.position_in_tote_grid.2 ≤ y ∧
        y < pd.position_in_tote_grid.2 +
          gridLen pd.chosen_orientation_dims.2.1 tote_obj.height_map_resolution) ∧
      tote_obj.height_map x y = pd.placement_z_level) ∧
    (∀ x y,
      pd.position_in_tote_grid.1 ≤ x →
      x < pd.position_in_tote_grid.1 +
        gridLen pd.chosen_orientation_dims.1 tote_obj.height_map_resolution →
      pd.position_in_tote_grid.2 ≤ y →
      y < pd.position_in_tote_grid.2 +
        gridLen pd.chosen_orientation_dims.2.1 tote_obj.height_map_resolution →
      tote_obj.height_map x y ≤ pd.placement_z_level) ∧
    (∀ x y,
      ¬(pd.position_in_tote_grid.1 ≤ x ∧
        x < pd.position_in_tote_grid.1 +
          gridLen pd.chosen_orientation_dims.1 tote_obj.height_map_resolution ∧
        pd.position_in_tote_grid.2 ≤ y ∧
        y < pd.position_in_tote_grid.2 +
          gridLen pd.chosen_orientation_dims.2.1 tote_obj.height_map_resolution) →
      ((add_case_to_tote_and_update_state case_obj tote_obj pd).2).height_map x y =
        tote_obj.height_map x y) ∧
    ((add_case_to_tote_and_update_state case_obj tote_obj pd).2).items =
      tote_obj.items ++ [(add_case_to_tote_and_update_state case_obj tote_obj pd).1] ∧
    ((add_case_to_tote_and_update_state case_obj tote_obj pd).1).chosen_orientation_dims =
      some pd.chosen_orientation_dims ∧
    ((add_case_to_tote_and_update_state case_obj tote_obj pd).1).position_in_tote_grid =
      some pd.position_in_tote_grid ∧
    ((add_case_to_tote_and_update_state case_obj tote_obj pd).1).placement_z_level =
      some pd.placement_z_level ∧
    ((add_case_to_tote_and_update_state case_obj tote_obj pd).2).remaining_volume =
      tote_obj.remaining_volume - case_obj.volume ∧
    ((add_case_to_tote_and_update_state case_obj tote_obj pd).1).interim_tote_utilization_at_placement =
      ((tote_obj.max_volume : ℚ) -
          (((add_case_to_tote_and_update_state case_obj tote_obj pd).2).remaining_volume : ℚ)) /
        (tote_obj.max_volume : ℚ) * 100 := by
  obtain ⟨-, -, -, hvalid, hz, -⟩ := attempt_place_case_some_facts hsearch
  have hmap : ((add_case_to_tote_and_update_state case_obj tote_obj pd).2).height_map =
      writeFootprint tote_obj.grid_dim_x tote_obj.grid_dim_y
        (footprintCells
          (gridLen pd.chosen_orientation_dims.1 tote_obj.height_map_resolution)
          (gridLen pd.chosen_orientation_dims.2.1 tote_obj.height_map_resolution)
          pd.position_in_tote_grid.1 pd.position_in_tote_grid.2)
        (pd.placement_z_level + pd.chosen_orientation_dims.2.2) tote_obj.height_map := rfl
  refine ⟨?_, ?_, ?_, ?_, rfl, rfl, rfl, rfl, rfl, ?_⟩
  · intro x y h1 h2 h3 h4
    have hmem := mem_footprintCells.mpr ⟨h1, h2, h3, h4⟩
    have hbounds := footprint_valid_elim hvalid hmem
    rw [hmap, writeFootprint_apply, if_pos ⟨hmem, hbounds⟩]
  · obtain ⟨x, y, hmem, hval⟩ := @base_z_attained tote_obj
      (gridLen pd.chosen_orientation_dims.1 tote_obj.height_map_resolution)
      (gridLen pd.chosen_orientation_dims.2.1 tote_obj.height_map_resolution)
      pd.position_in_tote_grid.1 pd.position_in_tote_grid.2
      (gridLen_pos pd.chosen_orientation_dims.1 tote_obj.height_map_resolution)
      (gridLen_pos pd.chosen_orientation_dims.2.1 tote_obj.height_map_resolution)
      hnn
    exact ⟨x, y, mem_footprintCells.mp hmem, by rw [hval, ← hz]⟩
  · intro x y h1 h2 h3 h4
    have hmem := mem_footprintCells.mpr ⟨h1, h2, h3, h4⟩
    rw [hz]
    exact height_le_base_z hmem
  · intro x y hnot
    rw [hmap, writeFootprint_apply, if_neg]
    rintro ⟨hmem, -⟩
    exact hnot (mem_footprintCells.mp hmem)
  · show (if 0 < tote_obj.max_volume ∧ 0 < tote_obj.items.length + 1 then
        ((tote_obj.max_volume - (tote_obj.remaining_volume - case_obj.volume) : Int) : ℚ) /
          (tote_obj.max_volume : ℚ) * 100
      else 0) = _
    rcases lt_or_eq_of_le hmv with hlt | hzero
    · rw [if_pos ⟨hlt, Nat.succ_pos _⟩]
      show _ = ((tote_obj.max_volume : ℚ) -
          ((tote_obj.remaining_volume - case_obj.volume : Int) : ℚ)) /
        (tote_obj.max_volume : ℚ) * 100
      norm_cast
    · rw [if_neg (by rw [← hzero]; simp)]
      show (0 : ℚ) = ((tote_obj.max_volume : ℚ) -
          ((tote_obj.remaining_volume - case_obj.volume : Int) : ℚ)) /
        (tote_obj.max_volume : ℚ) * 100
      rw [← hzero]
      simp

/-- Witness for C4 at a concrete input. -/
theorem commit_height_map_monotone_witness :
    toteW.height_map 0 0 ≤
      ((add_case_to_tote_and_update_state caseW toteW pdW).2).height_map 0 0 :=
  commit_height_map_monotone (by decide) (by decide) 0 0

/-- Witness for C2 at a concrete input: the committed footprint cell is
raised to `base_z + oriented_height`, a cell outside the footprint is
untouched, and the volume bookkeeping holds. -/
theorem commit_effects_witness :
    ((add_case_to_tote_and_update_state caseW toteW pdW).2).height_map 0 0 = 100 ∧
    ((add_case_to_tote_and_update_state caseW toteW pdW).2).height_map 1 1 =
      toteW.height_map 1 1 ∧
    ((add_case_to_tote_and_update_state caseW toteW pdW).2).remaining_volume =
      toteW.remaining_volume - caseW.volume := by
  obtain ⟨h1, -, -, h4, -, -, -, -, h9, -⟩ :=
    @commit_effects caseW toteW pdW
      (by decide) (fun x y => le_refl 0) (by decide)
  refine ⟨?_, h4 1 1 (by decide), h9⟩
  rw [h1 0 0 (by decide) (by decide) (by decide) (by decide)]
  decide

/-! ### Volume accounting -/

/-- remaining_volume == max_volume − Σ(item.volume). -/
def tote_volume_invariant (t : Tote) : Prop :=
  t.remaining_volume = t.max_volume - (t.items.map Case.volume).sum

/-- Tote states observable while a tote is open: freshly created, or the
result of any sequence of commits. -/
inductive ToteReachable (cfg : ToteConfig) : Tote → Prop where
  | created (tote_id : Nat) : ToteReachable cfg (create_new_empty_tote tote_id cfg)
  | committed {t : Tote} (case_obj : Case) (pd : PlacementInfo)
      (h : ToteReachable cfg t) :
      ToteReachable cfg ((add_case_to_tote_and_update_state case_obj t pd).2)

/-- C3: at every observable point of an open tote (after creation and
after each commit), `remaining_volume = max_volume − Σ item.volume`. -/
theorem reachable_tote_volume_invariant {cfg : ToteConfig} {t : Tote}
    (h : ToteReachable cfg t) : tote_volume_invariant t := by
  induction h with
  | created tote_id => simp [tote_volume_invariant, create_new_empty_tote]
  | committed case_obj pd h ih =>
    rename_i t0
    unfold tote_volume_invariant at ih ⊢
    have hitems : ((add_case_to_tote_and_update_state case_obj t0 pd).2).items =
        t0.items ++ [(add_case_to_tote_and_update_state case_obj t0 pd).1] := rfl
    have hvol : ((add_case_to_tote_and_update_state case_obj t0 pd).1).volume =
        case_obj.volume := rfl
    rw [hitems, List.map_append, List.sum_append]
    show t0.remaining_volume - case_obj.volume = t0.max_volume - _
    rw [List.map_cons, List.map_nil, hvol, List.sum_cons, List.sum_nil]
    omega

/-- Witness for C3 at a concrete input: fresh tote plus one commit. -/
theorem reachable_tote_volume_invariant_witness :
    tote_volume_invariant ((add_case_to_tote_and_update_state caseW toteW pdW).2) :=
  reachable_tote_volume_invariant
    (ToteReachable.committed caseW pdW (ToteReachable.created 1))

/-! ### Input clamping -/

/-- C9 counterexample: `get_case_properties` computes the volume from
the raw dimensions before clamping, so for the raw input
`(0, 5, 5)` the stored volume is `max 1 (0·5·5) = 1` while the clamped
original dimensions are `(1, 5, 5)` with product `25`. -/
theorem get_case_properties_volume_counterexample :
    (get_case_properties "SKU" 0 5 5).original_dims = (1, 5, 5) ∧
    (get_case_properties "SKU" 0 5 5).volume = 1 ∧
    ¬((get_case_properties "SKU" 0 5 5).volume =
      (get_case_properties "SKU" 0 5 5).original_dims.1 *
        (get_case_properties "SKU" 0 5 5).original_dims.2.1 *
        (get_case_properties "SKU" 0 5 5).original_dims.2.2) := by
  decide

/-- C9 (amended): every original dimension and every dimension of each
of the six orientations is clamped to at least 1, and the volume is
`max 1 (raw L·W·H) ≥ 1`; it equals the product of the clamped
dimensions whenever all raw dimensions are at least 1 (but not in
general for zero/negative inputs). -/
theorem get_case_properties_clamping (sku : String) (length width height : Int) :
    (get_case_properties sku length width height).original_dims =
      (max 1 length, max 1 width, max 1 height) ∧
    (∀ o ∈ (get_case_properties sku length width height).orientations,
      1 ≤ o.1 ∧ 1 ≤ o.2.1 ∧ 1 ≤ o.2.2) ∧
    (get_case_properties sku length width height).volume =
      max 1 (length * width * height) ∧
    1 ≤ (get_case_properties sku length width height).volume ∧
    (1 ≤ length → 1 ≤ width → 1 ≤ height →
      (get_case_properties sku length width height).volume =
        (get_case_properties sku length width height).original_dims.1 *
          (get_case_properties sku length width height).original_dims.2.1 *
          (get_case_properties sku length width height).original_dims.2.2) := by
  refine ⟨rfl, ?_, rfl, le_max_left _ _, ?_⟩
  · intro o ho
    have horient : (get_case_properties sku length width height).orientations =
        ([(length, width, height), (length, height, width),
          (width, length, height), (width, height, length),
          (height, length, width), (height, width, length)].map
          (fun o => (max 1 o.1, max 1 o.2.1, max 1 o.2.2))) := rfl
    rw [horient] at ho
    obtain ⟨raw, -, rfl⟩ := List.mem_map.mp ho
    exact ⟨le_max_left _ _, le_max_left _ _, le_max_left _ _⟩
  · intro h1 h2 h3
    have hvol : (get_case_properties sku length width height).volume =
        max 1 (length * width * height) := rfl
    have hdims : (get_case_properties sku length width height).original_dims =
        (max 1 length, max 1 width, max 1 height) := rfl
    have hlw : 1 ≤ length * width := by
      have := mul_le_mul h1 h2 zero_le_one (le_trans zero_le_one h1)
      simpa using this
    have hp : 1 ≤ length * width * height := by
      have := mul_le_mul hlw h3 zero_le_one (le_trans zero_le_one hlw)
      simpa using this
    rw [hvol, hdims, max_eq_right hp]
    show length * width * height = max 1 length * max 1 width * max 1 height
    rw [max_eq_right h1, max_eq_right h2, max_eq_right h3]

/-- Witness for the amended C9 at a concrete input. -/
theorem get_case_properties_clamping_witness :
    (get_case_properties "W" 2 3 4).volume =
      (get_case_properties "W" 2 3 4).original_dims.1 *
        (get_case_properties "W" 2 3 4).original_dims.2.1 *
        (get_case_properties "W" 2 3 4).original_dims.2.2 ∧
    1 ≤ (get_case_properties "W" 2 3 4).volume := by
  obtain ⟨-, -, -, h4, h5⟩ := get_case_properties_clamping "W" 2 3 4
  exact ⟨h5 (by decide) (by decide) (by decide), h4⟩

/-! ### Driver lemmas -/

theorem second_tote_attempt_shape (cfg : ToteConfig) (s : SimState) (current_case : Case) :
    (second_tote_attempt cfg s current_case).all_processed_totes_full_data =
      (finalize_and_store_tote s.current_tote s.all_processed_totes_full_data).2 ∧
    (second_tote_attempt cfg s current_case).next_tote_id = s.next_tote_id + 1 ∧
    ((∃ details,
        attempt_place_case current_case
            (create_new_empty_tote (s.next_tote_id + 1) cfg) = some details ∧
        current_case.volume ≤
          (create_new_empty_tote (s.next_tote_id + 1) cfg).remaining_volume ∧
        (second_tote_attempt cfg s current_case).current_tote =
          (add_case_to_tote_and_update_state current_case
            (create_new_empty_tote (s.next_tote_id + 1) cfg) details).2 ∧
        (second_tote_attempt cfg s current_case).unplaceable_cases_log =
          s.unplaceable_cases_log) ∨
      ((attempt_place_case current_case
            (create_new_empty_tote (s.next_tote_id + 1) cfg) = none ∨
          (create_new_empty_tote (s.next_tote_id + 1) cfg).remaining_volume <
            current_case.volume) ∧
        (second_tote_attempt cfg s current_case).current_tote =
          create_new_empty_tote (s.next_tote_id + 1) cfg ∧
        ((second_tote_attempt cfg s current_case).unplaceable_cases_log =
            s.unplaceable_cases_log ++
              [{ sku := current_case.sku,
                 reason := "Could not fit new empty tote (no spatial fit)" }] ∨
          (second_tote_attempt cfg s current_case).unplaceable_cases_log =
            s.unplaceable_cases_log ++
              [{ sku := current_case.sku,
                 reason :=
                   "Could not fit new empty tote (insufficient volume (unexpected))" }]))) := by
  cases hres : attempt_place_case current_case
      (create_new_empty_tote (s.next_tote_id + 1) cfg) with
  | none =>
    have heq : second_tote_attempt cfg s current_case =
        { all_processed_totes_full_data :=
            (finalize_and_store_tote s.current_tote s.all_processed_totes_full_data).2
          unplaceable_cases_log := s.unplaceable_cases_log ++
            [{ sku := current_case.sku,
               reason := "Could not fit new empty tote (no spatial fit)" }]
          next_tote_id := s.next_tote_id + 1
          current_tote := create_new_empty_tote (s.next_tote_id + 1) cfg } := by
      simp only [second_tote_attempt, hres]
    rw [heq]
    exact ⟨rfl, rfl, Or.inr ⟨Or.inl rfl, rfl, Or.inl rfl⟩⟩
  | some details =>
    by_cases hvol : current_case.volume ≤
        (create_new_empty_tote (s.next_tote_id + 1) cfg).remaining_volume
    · have heq : second_tote_attempt cfg s current_case =
          { all_processed_totes_full_data :=
              (finalize_and_store_tote s.current_tote s.all_processed_totes_full_data).2
            unplaceable_cases_log := s.unplaceable_cases_log
            next_tote_id := s.next_tote_id + 1
            current_tote := (add_case_to_tote_and_update_state current_case
              (create_new_empty_tote (s.next_tote_id + 1) cfg) details).2 } := by
        simp only [second_tote_attempt, hres]
        rw [if_pos hvol]
      rw [heq]
      exact ⟨rfl, rfl, Or.inl ⟨details, rfl, hvol, rfl, rfl⟩⟩
    · have heq : second_tote_attempt cfg s current_case =
          { all_processed_totes_full_data :=
              (finalize_and_store_tote s.current_tote s.all_processed_totes_full_data).2
            unplaceable_cases_log := s.unplaceable_cases_log ++
              [{ sku := current_case.sku,
                 reason :=
                   "Could not fit new empty tote (insufficient volume (unexpected))" }]
            next_tote_id := s.next_tote_id + 1
            current_tote := create_new_empty_tote (s.next_tote_id + 1) cfg } := by
        simp only [second_tote_attempt, hres]
        rw [if_neg hvol]
      rw [heq]
      exact ⟨rfl, rfl, Or.inr ⟨Or.inr (not_le.mp hvol), rfl, Or.inr rfl⟩⟩

theorem process_case_shape (cfg : ToteConfig) (s : SimState) (case_raw_data : RawCase) :
    (∃ e : UnplaceableEntry,
        process_case cfg s case_raw_data =
          { s with unplaceable_cases_log := s.unplaceable_cases_log ++ [e] }) ∨
    (∃ details,
        attempt_place_case (get_case_properties case_raw_data.sku case_raw_data.length
            case_raw_data.width case_raw_data.height) s.current_tote = some details ∧
        process_case cfg s case_raw_data =
          { s with current_tote :=
              (add_case_to_tote_and_update_state
                (get_case_properties case_raw_data.sku case_raw_data.length
                  case_raw_data.width case_raw_data.height) s.current_tote details).2 }) ∨
    process_case cfg s case_raw_data =
      second_tote_attempt cfg s
        (get_case_properties case_raw_data.sku case_raw_data.length
          case_raw_data.width case_raw_data.height) := by
  by_cases hcond : (decide (cfg.TOTE_MAX_VOLUME <
      (get_case_properties case_raw_data.sku case_raw_data.length
        case_raw_data.width case_raw_data.height).volume) ||
      !((get_case_properties case_raw_data.sku case_raw_data.length
          case_raw_data.width case_raw_data.height).orientations.any (fun o =>
        decide (o.1 ≤ cfg.TOTE_MAX_LENGTH) && decide (o.2.1 ≤ cfg.TOTE_MAX_WIDTH) &&
          decide (o.2.2 ≤ cfg.TOTE_MAX_HEIGHT)))) = true
  · by_cases hvola : decide (cfg.TOTE_MAX_VOLUME <
        (get_case_properties case_raw_data.sku case_raw_data.length
          case_raw_data.width case_raw_data.height).volume) = true
    · refine Or.inl ⟨⟨case_raw_data.sku, "Fundamentally too large (volume)"⟩, ?_⟩
      simp only [process_case]
      rw [if_pos hcond, if_pos hvola]
      rfl
    · refine Or.inl ⟨⟨case_raw_data.sku, "Fundamentally too large (dimensions)"⟩, ?_⟩
      simp only [process_case]
      rw [if_pos hcond, if_neg hvola]
      rfl
  · cases hres : attempt_place_case (get_case_properties case_raw_data.sku
        case_raw_data.length case_raw_data.width case_raw_data.height) s.current_tote with
    | none =>
      refine Or.inr (Or.inr ?_)
      simp only [process_case]
      rw [if_neg hcond]
      simp only [hres]
    | some details =>
      by_cases hvol : (get_case_properties case_raw_data.sku case_raw_data.length
          case_raw_data.width case_raw_data.height).volume ≤
            s.current_tote.remaining_volume
      · refine Or.inr (Or.inl ⟨details, rfl, ?_⟩)
        simp only [process_case]
        rw [if_neg hcond]
        simp only [hres]
        rw [if_pos hvol]
      · refine Or.inr (Or.inr ?_)
        simp only [process_case]
        rw [if_neg hcond]
        simp only [hres]
        rw [if_neg hvol]

/-- C5: items too large for any tote (by volume against the configured
maximum, or with no orientation fitting an empty tote's dimensions) are
logged with the corresponding reason and skipped: the result list, the
open tote and the running ids are exactly those of the incoming state,
so no search or commit has touched them. -/
theorem driver_skips_fundamentally_too_large (cfg : ToteConfig) (s : SimState)
    (case_raw_data : RawCase) :
    (cfg.TOTE_MAX_VOLUME <
        (get_case_properties case_raw_data.sku case_raw_data.length
          case_raw_data.width case_raw_data.height).volume →
      process_case cfg s case_raw_data =
        { s with unplaceable_cases_log := s.unplaceable_cases_log ++
            [{ sku := case_raw_data.sku,
               reason := "Fundamentally too large (volume)" }] }) ∧
    ((get_case_properties case_raw_data.sku case_raw_data.length
        case_raw_data.width case_raw_data.height).volume ≤ cfg.TOTE_MAX_VOLUME →
      (∀ o ∈ (get_case_properties case_raw_data.sku case_raw_data.length
          case_raw_data.width case_raw_data.height).orientations,
        ¬(o.1 ≤ cfg.TOTE_MAX_LENGTH ∧ o.2.1 ≤ cfg.TOTE_MAX_WIDTH ∧
          o.2.2 ≤ cfg.TOTE_MAX_HEIGHT)) →
      process_case cfg s case_raw_data =
        { s with unplaceable_cases_log := s.unplaceable_cases_log ++
            [{ sku := case_raw_data.sku,
               reason := "Fundamentally too large (dimensions)" }] }) := by
  constructor
  · intro hv
    have hvd : decide (cfg.TOTE_MAX_VOLUME <
        (get_case_properties case_raw_data.sku case_raw_data.length
          case_raw_data.width case_raw_data.height).volume) = true := decide_eq_true hv
    have hcondtrue : (decide (cfg.TOTE_MAX_VOLUME <
        (get_case_properties case_raw_data.sku case_raw_data.length
          case_raw_data.width case_raw_data.height).volume) ||
        !((get_case_properties case_raw_data.sku case_raw_data.length
            case_raw_data.width case_raw_data.height).orientations.any (fun o =>
          decide (o.1 ≤ cfg.TOTE_MAX_LENGTH) && decide (o.2.1 ≤ cfg.TOTE_MAX_WIDTH) &&
            decide (o.2.2 ≤ cfg.TOTE_MAX_HEIGHT)))) = true := by
      rw [hvd, Bool.true_or]
    simp only [process_case]
    rw [if_pos hcondtrue, if_pos hvd]
    rfl
  · intro hv hd
    have hvd : decide (cfg.TOTE_MAX_VOLUME <
        (get_case_properties case_raw_data.sku case_raw_data.length
          case_raw_data.width case_raw_data.height).volume) = false :=
      decide_eq_false (not_lt.mpr hv)
    have hcan : ((get_case_properties case_raw_data.sku case_raw_data.length
        case_raw_data.width case_raw_data.height).orientations.any (fun o =>
          decide (o.1 ≤ cfg.TOTE_MAX_LENGTH) && decide (o.2.1 ≤ cfg.TOTE_MAX_WIDTH) &&
            decide (o.2.2 ≤ cfg.TOTE_MAX_HEIGHT))) = false := by
      rw [List.any_eq_false]
      intro o ho
      have hno := hd o ho
      by_contra happ
      rw [Bool.and_eq_true, Bool.and_eq_true] at happ
      obtain ⟨⟨h1, h2⟩, h3⟩ := happ
      rw [decide_eq_true_eq] at h1 h2 h3
      exact hno ⟨h1, h2, h3⟩
    have hcondtrue : (decide (cfg.TOTE_MAX_VOLUME <
        (get_case_properties case_raw_data.sku case_raw_data.length
          case_raw_data.width case_raw_data.height).volume) ||
        !((get_case_properties case_raw_data.sku case_raw_data.length
            case_raw_data.width case_raw_data.height).orientations.any (fun o =>
          decide (o.1 ≤ cfg.TOTE_MAX_LENGTH) && decide (o.2.1 ≤ cfg.TOTE_MAX_WIDTH) &&
            decide (o.2.2 ≤ cfg.TOTE_MAX_HEIGHT)))) = true := by
      rw [hvd, hcan]
      rfl
    have hvdneg : ¬(decide (cfg.TOTE_MAX_VOLUME <
        (get_case_properties case_raw_data.sku case_raw_data.length
          case_raw_data.width case_raw_data.height).volume) = true) := by
      rw [hvd]
      exact Bool.false_ne_true
    simp only [process_case]
    rw [if_pos hcondtrue, if_neg hvdneg]
    rfl

/-- Witness for C5 at concrete inputs: one item over the volume cap,
one item with no orientation fitting the empty tote. -/
theorem driver_skips_fundamentally_too_large_witness :
    process_case cfgW (initial_sim_state cfgW) { sku := "V", length := 300, width := 300, height := 300 } =
      { initial_sim_state cfgW with unplaceable_cases_log :=
          (initial_sim_state cfgW).unplaceable_cases_log ++
            [{ sku := "V", reason := "Fundamentally too large (volume)" }] } ∧
    process_case cfgW (initial_sim_state cfgW) { sku := "D", length := 300, width := 50, height := 50 } =
      { initial_sim_state cfgW with unplaceable_cases_log :=
          (initial_sim_state cfgW).unplaceable_cases_log ++
            [{ sku := "D", reason := "Fundamentally too large (dimensions)" }] } :=
  ⟨(driver_skips_fundamentally_too_large cfgW (initial_sim_state cfgW)
      { sku := "V", length := 300, width := 300, height := 300 }).1 (by decide),
   (driver_skips_fundamentally_too_large cfgW (initial_sim_state cfgW)
      { sku := "D", length := 300, width := 50, height := 50 }).2 (by decide) (by decide)⟩

/-- C6: an item that passes the too-large pre-check but fails search or
the volumetric gate against the current tote takes the fallback path:
the current tote is finalized and appended to the results, a fresh tote
with the next sequential id is opened, and search plus gate run exactly
once against it — committing there on success, otherwise logging the
item (code reason string "Could not fit new empty tote (...)", the
code-level rendering of the spec label no-fit-in-fresh-tote) and
leaving the fresh tote open and empty. -/
theorem driver_retries_once_in_fresh_tote (cfg : ToteConfig) (s : SimState)
    (case_raw_data : RawCase)
    (hv : (get_case_properties case_raw_data.sku case_raw_data.length
        case_raw_data.width case_raw_data.height).volume ≤ cfg.TOTE_MAX_VOLUME)
    (hd : ∃ o ∈ (get_case_properties case_raw_data.sku case_raw_data.length
        case_raw_data.width case_raw_data.height).orientations,
      o.1 ≤ cfg.TOTE_MAX_LENGTH ∧ o.2.1 ≤ cfg.TOTE_MAX_WIDTH ∧
        o.2.2 ≤ cfg.TOTE_MAX_HEIGHT)
    (hfail : attempt_place_case (get_case_properties case_raw_data.sku
        case_raw_data.length case_raw_data.width case_raw_data.height)
          s.current_tote = none ∨
      s.current_tote.remaining_volume <
        (get_case_properties case_raw_data.sku case_raw_data.length
          case_raw_data.width case_raw_data.height).volume) :
    process_case cfg s case_raw_data =
      second_tote_attempt cfg s
        (get_case_properties case_raw_data.sku case_raw_data.length
          case_raw_data.width case_raw_data.height) ∧
    (second_tote_attempt cfg s
        (get_case_properties case_raw_data.sku case_raw_data.length
          case_raw_data.width case_raw_data.height)).all_processed_totes_full_data =
      (finalize_and_store_tote s.current_tote s.all_processed_totes_full_data).2 ∧
    (second_tote_attempt cfg s
        (get_case_properties case_raw_data.sku case_raw_data.length
          case_raw_data.width case_raw_data.height)).next_tote_id =
      s.next_tote_id + 1 ∧
    (create_new_empty_tote (s.next_tote_id + 1) cfg).items = [] ∧
    ((∃ details,
        attempt_place_case (get_case_properties case_raw_data.sku case_raw_data.length
            case_raw_data.width case_raw_data.height)
            (create_new_empty_tote (s.next_tote_id + 1) cfg) = some details ∧
        (get_case_properties case_raw_data.sku case_raw_data.length
            case_raw_data.width case_raw_data.height).volume ≤
          (create_new_empty_tote (s.next_tote_id + 1) cfg).remaining_volume ∧
        (second_tote_attempt cfg s
            (get_case_properties case_raw_data.sku case_raw_data.length
              case_raw_data.width case_raw_data.height)).current_tote =
          (add_case_to_tote_and_update_state
            (get_case_properties case_raw_data.sku case_raw_data.length
              case_raw_data.width case_raw_data.height)
            (create_new_empty_tote (s.next_tote_id + 1) cfg) details).2 ∧
        (second_tote_attempt cfg s
            (get_case_properties case_raw_data.sku case_raw_data.length
              case_raw_data.width case_raw_data.height)).unplaceable_cases_log =
          s.unplaceable_cases_log) ∨
      ((attempt_place_case (get_case_properties case_raw_data.sku case_raw_data.length
            case_raw_data.width case_raw_data.height)
            (create_new_empty_tote (s.next_tote_id + 1) cfg) = none ∨
          (create_new_empty_tote (s.next_tote_id + 1) cfg).remaining_volume <
            (get_case_properties case_raw_data.sku case_raw_data.length
              case_raw_data.width case_raw_data.height).volume) ∧
        (second_tote_attempt cfg s
            (get_case_properties case_raw_data.sku case_raw_data.length
              case_raw_data.width case_raw_data.height)).current_tote =
          create_new_empty_tote (s.next_tote_id + 1) cfg ∧
        ((second_tote_attempt cfg s
              (get_case_properties case_raw_data.sku case_raw_data.length
                case_raw_data.width case_raw_data.height)).unplaceable_cases_log =
            s.unplaceable_cases_log ++
              [{ sku := (get_case_properties case_raw_data.sku case_raw_data.length
                  case_raw_data.width case_raw_data.height).sku,
                 reason := "Could not fit new empty tote (no spatial fit)" }] ∨
          (second_tote_attempt cfg s
              (get_case_properties case_raw_data.sku case_raw_data.length
                case_raw_data.width case_raw_data.height)).unplaceable_cases_log =
            s.unplaceable_cases_log ++
              [{ sku := (get_case_properties case_raw_data.sku case_raw_data.length
                  case_raw_data.width case_raw_data.height).sku,
                 reason :=
                   "Could not fit new empty tote (insufficient volume (unexpected))" }]))) := by
  have hvd : decide (cfg.TOTE_MAX_VOLUME <
      (get_case_properties case_raw_data.sku case_raw_data.length
        case_raw_data.width case_raw_data.height).volume) = false :=
    decide_eq_false (not_lt.mpr hv)
  have hcan : ((get_case_properties case_raw_data.sku case_raw_data.length
      case_raw_data.width case_raw_data.height).orientations.any (fun o =>
        decide (o.1 ≤ cfg.TOTE_MAX_LENGTH) && decide (o.2.1 ≤ cfg.TOTE_MAX_WIDTH) &&
          decide (o.2.2 ≤ cfg.TOTE_MAX_HEIGHT))) = true := by
    rw [List.any_eq_true]
    obtain ⟨o, ho, h1, h2, h3⟩ := hd
    exact ⟨o, ho, by simp [h1, h2, h3]⟩
  have hcondfalse : (decide (cfg.TOTE_MAX_VOLUME <
      (get_case_properties case_raw_data.sku case_raw_data.length
        case_raw_data.width case_raw_data.height).volume) ||
      !((get_case_properties case_raw_data.sku case_raw_data.length
          case_raw_data.width case_raw_data.height).orientations.any (fun o =>
        decide (o.1 ≤ cfg.TOTE_MAX_LENGTH) && decide (o.2.1 ≤ cfg.TOTE_MAX_WIDTH) &&
          decide (o.2.2 ≤ cfg.TOTE_MAX_HEIGHT)))) = false := by
    rw [hvd, hcan]
    rfl
  have hcondneg : ¬((decide (cfg.TOTE_MAX_VOLUME <
      (get_case_properties case_raw_data.sku case_raw_data.length
        case_raw_data.width case_raw_data.height).volume) ||
      !((get_case_properties case_raw_data.sku case_raw_data.length
          case_raw_data.width case_raw_data.height).orientations.any (fun o =>
        decide (o.1 ≤ cfg.TOTE_MAX_LENGTH) && decide (o.2.1 ≤ cfg.TOTE_MAX_WIDTH) &&
          decide (o.2.2 ≤ cfg.TOTE_MAX_HEIGHT)))) = true) := by
    rw [hcondfalse]
    exact Bool.false_ne_true
  have hmain : process_case cfg s case_raw_data =
      second_tote_attempt cfg s
        (get_case_properties case_raw_data.sku case_raw_data.length
          case_raw_data.width case_raw_data.height) := by
    rcases hfail with hnone | hvol2
    · simp only [process_case]
      rw [if_neg hcondneg]
      simp only [hnone]
    · cases hres : attempt_place_case (get_case_properties case_raw_data.sku
          case_raw_data.length case_raw_data.width case_raw_data.height)
            s.current_tote with
      | none =>
        simp only [process_case]
        rw [if_neg hcondneg]
        simp only [hres]
      | some details =>
        simp only [process_case]
        rw [if_neg hcondneg]
        simp only [hres]
        rw [if_neg (not_le.mpr hvol2)]
  obtain ⟨hres1, hres2, hres3⟩ := second_tote_attempt_shape cfg s
    (get_case_properties case_raw_data.sku case_raw_data.length
      case_raw_data.width case_raw_data.height)
  exact ⟨hmain, hres1, hres2, rfl, hres3⟩

/-- Driver state with an open tote whose remaining volume is exhausted,
used by the C6 witness. -/
def sPoorW : SimState :=
  { all_processed_totes_full_data := []
    unplaceable_cases_log := []
    next_tote_id := 1
    current_tote := { toteW with remaining_volume := 0 } }

/-- Witness for C6 at a concrete input: the volumetric gate fails on
the exhausted tote, so the driver finalizes it and retries in a fresh
tote with the next id. -/
theorem driver_retries_once_in_fresh_tote_witness :
    process_case cfgW sPoorW { sku := "W", length := 100, width := 100, height := 100 } =
      second_tote_attempt cfgW sPoorW (get_case_properties "W" 100 100 100) ∧
    (second_tote_attempt cfgW sPoorW (get_case_properties "W" 100 100 100)).next_tote_id =
      sPoorW.next_tote_id + 1 := by
  obtain ⟨h1, -, h3, -, -⟩ := driver_retries_once_in_fresh_tote cfgW sPoorW
    { sku := "W", length := 100, width := 100, height := 100 }
    (by decide) (by decide) (Or.inr (by decide))
  exact ⟨h1, h3⟩

theorem process_case_preserves_id1 (cfg : ToteConfig) (s : SimState)
    (case_raw_data : RawCase)
    (h : s.all_processed_totes_full_data = [] → s.current_tote.id = 1) :
    (process_case cfg s case_raw_data).all_processed_totes_full_data = [] →
      (process_case cfg s case_raw_data).current_tote.id = 1 := by
  rcases process_case_shape cfg s case_raw_data with ⟨e, heq⟩ | ⟨details, -, heq⟩ | heq
  · rw [heq]
    intro hnil
    exact h hnil
  · rw [heq]
    intro hnil
    exact h hnil
  · rw [heq]
    intro hnil
    obtain ⟨hsh1, -, -⟩ := second_tote_attempt_shape cfg s
      (get_case_properties case_raw_data.sku case_raw_data.length
        case_raw_data.width case_raw_data.height)
    rw [hsh1] at hnil
    exact absurd hnil (by simp [finalize_and_store_tote])

theorem foldl_preserves_id1 (cfg : ToteConfig) :
    ∀ (case_data_list : List RawCase) (s : SimState),
      (s.all_processed_totes_full_data = [] → s.current_tote.id = 1) →
      ((case_data_list.foldl (process_case cfg) s).all_processed_totes_full_data = [] →
        (case_data_list.foldl (process_case cfg) s).current_tote.id = 1) := by
  intro case_data_list
  induction case_data_list with
  | nil => intro s h; exact h
  | cons raw l ih =>
    intro s h
    exact ih (process_case cfg s raw) (process_case_preserves_id1 cfg s raw h)

/-- C7: after the stream ends the driver finalizes the open tote iff it
holds at least one item or it is tote #1 with nothing finalized yet, so
every run — the empty stream included — yields at least one finalized
tote record. -/
theorem driver_final_finalization (cfg : ToteConfig) (case_data_list : List RawCase) :
    ((0 < (case_data_list.foldl (process_case cfg)
          (initial_sim_state cfg)).current_tote.items.length ∨
        ((case_data_list.foldl (process_case cfg)
            (initial_sim_state cfg)).current_tote.id = 1 ∧
          (case_data_list.foldl (process_case cfg)
            (initial_sim_state cfg)).all_processed_totes_full_data.isEmpty = true)) →
      (run_simulation_for_visualization_data case_data_list cfg).all_processed_totes_full_data =
        (finalize_and_store_tote
          (case_data_list.foldl (process_case cfg) (initial_sim_state cfg)).current_tote
          (case_data_list.foldl (process_case cfg)
            (initial_sim_state cfg)).all_processed_totes_full_data).2) ∧
    (¬(0 < (case_data_list.foldl (process_case cfg)
          (initial_sim_state cfg)).current_tote.items.length ∨
        ((case_data_list.foldl (process_case cfg)
            (initial_sim_state cfg)).current_tote.id = 1 ∧
          (case_data_list.foldl (process_case cfg)
            (initial_sim_state cfg)).all_processed_totes_full_data.isEmpty = true)) →
      (run_simulation_for_visualization_data case_data_list cfg).all_processed_totes_full_data =
        (case_data_list.foldl (process_case cfg)
          (initial_sim_state cfg)).all_processed_totes_full_data) ∧
    0 < (run_simulation_for_visualization_data
        case_data_list cfg).all_processed_totes_full_data.length := by
  refine ⟨?_, ?_, ?_⟩
  · intro hcond
    simp only [run_simulation_for_visualization_data]
    rw [if_pos hcond]
  · intro hcond
    simp only [run_simulation_for_visualization_data]
    rw [if_neg hcond]
  · by_cases hcond : (0 < (case_data_list.foldl (process_case cfg)
          (initial_sim_state cfg)).current_tote.items.length ∨
        ((case_data_list.foldl (process_case cfg)
            (initial_sim_state cfg)).current_tote.id = 1 ∧
          (case_data_list.foldl (process_case cfg)
            (initial_sim_state cfg)).all_processed_totes_full_data.isEmpty = true))
    · simp only [run_simulation_for_visualization_data]
      rw [if_pos hcond]
      simp [finalize_and_store_tote]
    · simp only [run_simulation_for_visualization_data]
      rw [if_neg hcond]
      cases hall : (case_data_list.foldl (process_case cfg)
          (initial_sim_state cfg)).all_processed_totes_full_data with
      | nil =>
        exfalso
        have hid : (case_data_list.foldl (process_case cfg)
            (initial_sim_state cfg)).current_tote.id = 1 :=
          foldl_preserves_id1 cfg case_data_list (initial_sim_state cfg)
            (fun _ => rfl) hall
        exact hcond (Or.inr ⟨hid, by rw [hall]; rfl⟩)
      | cons t ts => simp

/-- Witness for C7: the empty stream still yields one finalized tote. -/
theorem driver_final_finalization_witness :
    (run_simulation_for_visualization_data [] cfgW).all_processed_totes_full_data =
      (finalize_and_store_tote
        (([] : List RawCase).foldl (process_case cfgW) (initial_sim_state cfgW)).current_tote
        (([] : List RawCase).foldl (process_case cfgW)
          (initial_sim_state cfgW)).all_processed_totes_full_data).2 :=
  (driver_final_finalization cfgW []).1 (Or.inr ⟨rfl, rfl⟩)

/-! ### Recorded placements stay inside the tote -/

/-- The recorded placement of an item lies entirely inside tote `t`:
the footprint anchored at its grid position stays within the grid and
the item's top stays under the height cap. -/
def item_placement_in_bounds (t : Tote) (c : Case) : Prop :=
  ∃ dims pos z, c.chosen_orientation_dims = some dims ∧
    c.position_in_tote_grid = some pos ∧ c.placement_z_level = some z ∧
    pos.1 + gridLen dims.1 t.height_map_resolution ≤ t.grid_dim_x ∧
    pos.2 + gridLen dims.2.1 t.height_map_resolution ≤ t.grid_dim_y ∧
    z + dims.2.2 ≤ t.max_height

/-- Every item of the tote has an in-bounds recorded placement. -/
def tote_items_in_bounds (t : Tote) : Prop :=
  ∀ c ∈ t.items, item_placement_in_bounds t c

/-- The driver invariant: the open tote and every finalized tote hold
only in-bounds items. -/
def sim_state_in_bounds (s : SimState) : Prop :=
  tote_items_in_bounds s.current_tote ∧
  ∀ t ∈ s.all_processed_totes_full_data, tote_items_in_bounds t

theorem commit_preserves_in_bounds {case_obj : Case} {tote_obj : Tote}
    {details : PlacementInfo}
    (hres : attempt_place_case case_obj tote_obj = some details)
    (ht : tote_items_in_bounds tote_obj) :
    tote_items_in_bounds
      ((add_case_to_tote_and_update_state case_obj tote_obj details).2) := by
  intro c hc
  have hitems : ((add_case_to_tote_and_update_state case_obj tote_obj details).2).items =
      tote_obj.items ++ [(add_case_to_tote_and_update_state case_obj tote_obj details).1] :=
    rfl
  rw [hitems] at hc
  rcases List.mem_append.mp hc with hold | hnew
  · obtain ⟨dims, pos, z, h1, h2, h3, h4, h5, h6⟩ := ht c hold
    exact ⟨dims, pos, z, h1, h2, h3, h4, h5, h6⟩
  · obtain rfl := List.mem_singleton.mp hnew
    obtain ⟨-, hx, hy, -, -, hheight⟩ := attempt_place_case_some_facts hres
    exact ⟨details.chosen_orientation_dims, details.position_in_tote_grid,
      details.placement_z_level, rfl, rfl, rfl, hx, hy, hheight⟩

theorem fresh_tote_in_bounds (tote_id : Nat) (cfg : ToteConfig) :
    tote_items_in_bounds (create_new_empty_tote tote_id cfg) := by
  intro c hc
  simp [create_new_empty_tote] at hc

theorem finalize_preserves_in_bounds {tote_obj : Tote} {target_list : List Tote}
    (h1 : tote_items_in_bounds tote_obj)
    (h2 : ∀ t ∈ target_list, tote_items_in_bounds t) :
    ∀ t ∈ (finalize_and_store_tote tote_obj target_list).2, tote_items_in_bounds t := by
  intro t ht
  have happ : (finalize_and_store_tote tote_obj target_list).2 =
      target_list ++ [(finalize_and_store_tote tote_obj target_list).1] := rfl
  rw [happ] at ht
  rcases List.mem_append.mp ht with hold | hnew
  · exact h2 t hold
  · obtain rfl := List.mem_singleton.mp hnew
    intro c hc
    obtain ⟨dims, pos, z, g1, g2, g3, g4, g5, g6⟩ := h1 c hc
    exact ⟨dims, pos, z, g1, g2, g3, g4, g5, g6⟩

theorem second_tote_attempt_preserves_in_bounds {cfg : ToteConfig} {s : SimState}
    {current_case : Case} (hs : sim_state_in_bounds s) :
    sim_state_in_bounds (second_tote_attempt cfg s current_case) := by
  obtain ⟨hsh1, -, hsh3⟩ := second_tote_attempt_shape cfg s current_case
  constructor
  · rcases hsh3 with ⟨details, hres, -, hcur, -⟩ | ⟨-, hcur, -⟩
    · rw [hcur]
      exact commit_preserves_in_bounds hres (fresh_tote_in_bounds _ _)
    · rw [hcur]
      exact fresh_tote_in_bounds _ _
  · rw [hsh1]
    exact finalize_preserves_in_bounds hs.1 hs.2

theorem process_case_preserves_in_bounds (cfg : ToteConfig) (s : SimState)
    (case_raw_data : RawCase) (hs : sim_state_in_bounds s) :
    sim_state_in_bounds (process_case cfg s case_raw_data) := by
  rcases process_case_shape cfg s case_raw_data with ⟨e, heq⟩ | ⟨details, hres, heq⟩ | heq
  · rw [heq]
    exact ⟨hs.1, hs.2⟩
  · rw [heq]
    exact ⟨commit_preserves_in_bounds hres hs.1, hs.2⟩
  · rw [heq]
    exact second_tote_attempt_preserves_in_bounds hs

theorem foldl_preserves_in_bounds (cfg : ToteConfig) :
    ∀ (case_data_list : List RawCase) (s : SimState), sim_state_in_bounds s →
      sim_state_in_bounds (case_data_list.foldl (process_case cfg) s) := by
  intro case_data_list
  induction case_data_list with
  | nil => intro s hs; exact hs
  | cons raw l ih =>
    intro s hs
    exact ih (process_case cfg s raw) (process_case_preserves_in_bounds cfg s raw hs)

/-- C10: in every tote the driver produces — the open tote and every
finalized tote — each item's recorded placement lies entirely inside the
tote: its footprint (computed from the chosen orientation and the
tote's resolution) fits within the grid at its anchor, and its top
`placement_z_level + oriented_height` is at most `max_height`. -/
theorem driver_placements_in_bounds (cfg : ToteConfig) (case_data_list : List RawCase) :
    tote_items_in_bounds
      (run_simulation_for_visualization_data case_data_list cfg).current_tote ∧
    ∀ t ∈ (run_simulation_for_visualization_data
        case_data_list cfg).all_processed_totes_full_data,
      tote_items_in_bounds t := by
  have hfold : sim_state_in_bounds
      (case_data_list.foldl (process_case cfg) (initial_sim_state cfg)) :=
    foldl_preserves_in_bounds cfg case_data_list (initial_sim_state cfg)
      ⟨fresh_tote_in_bounds 1 cfg, fun t ht => absurd ht (List.not_mem_nil t)⟩
  simp only [run_simulation_for_visualization_data]
  split_ifs with hcond
  · exact ⟨hfold.1, finalize_preserves_in_bounds hfold.1 hfold.2⟩
  · exact ⟨hfold.1, hfold.2⟩

end BinPacking
